import Mathlib

/-!
Verification development for the Digital Diggaz playlist bot.

The definitions below are a shallow embedding of the bot's resolution
pipeline: `lib/date-utils.js` (release-date matching), `lib/music-detector.js`
(URL/text extraction and normalization), `lib/spotify.js` (search-query
construction, track lookup, playlist append) and the run handler's candidate
loop.  JavaScript strings are modelled as Lean `String`/`List Char`, `null`
via `Option`, thrown exceptions via `Except`, and the external HTTP API via
explicit function parameters.  The small regular expressions used by the
source are translated into explicit character-level matchers that follow the
JS engine's leftmost / lazy / greedy behaviour on the pattern shapes that
actually occur.
-/

namespace DigitalDiggaz

/-- Models the JavaScript `\s` character class (also used by `String.trim`):
ASCII whitespace plus the Unicode space separators, line separators and BOM. -/
def isJsWs (c : Char) : Bool :=
  c = ' ' || c = '\t' || c = '\n' || c.val = 11 || c.val = 12 ||
  c = '\r' || c.val = 0xa0 || c.val = 0x1680 ||
  (0x2000 ≤ c.val && c.val ≤ 0x200a) ||
  c.val = 0x2028 || c.val = 0x2029 || c.val = 0x202f || c.val = 0x205f ||
  c.val = 0x3000 || c.val = 0xfeff

/-- Models the JS regex `.` metacharacter (without the `s` flag): any character
except a line terminator. -/
def dotChar (c : Char) : Bool :=
  ¬ (c = '\n' ∨ c = '\r' ∨ c.val = 0x2028 ∨ c.val = 0x2029)

/-- Models the JS regex `\w` character class. -/
def isWordChar (c : Char) : Bool :=
  ('a' ≤ c && c ≤ 'z') || ('A' ≤ c && c ≤ 'Z') || ('0' ≤ c && c ≤ '9') || c = '_'

/-- Models JS `String.prototype.trim` on a character list: drop `\s` characters
from both ends. -/
def trimList (l : List Char) : List Char :=
  ((l.dropWhile isJsWs).reverse.dropWhile isJsWs).reverse

/-- String wrapper for `trimList`, models `s.trim()`. -/
def trimStr (s : String) : String :=
  String.mk (trimList s.data)

/-! ## date-utils.js -/

/-- Embeds `isReleasedInMonth` from `lib/date-utils.js`: falsy (empty) inputs
are rejected, a release-date string shorter than 7 characters is rejected
(year-only precision), otherwise the result is `releaseDate.startsWith(target)`
(modelled as a character-list prefix test). -/
def isReleasedInMonth (releaseDate targetYearMonth : String) : Bool :=
  if releaseDate = "" || targetYearMonth = "" then false
  else if releaseDate.length < 7 then false
  else targetYearMonth.data.isPrefixOf releaseDate.data

/-! ## lib/spotify.js — addTracksToPlaylist -/

/-- Embeds `TRACKS_PER_BATCH` from `lib/spotify.js`. -/
def TRACKS_PER_BATCH : Nat := 100

/-- Embeds the batching loop of `addTracksToPlaylist`
(`for (let i = 0; i < newUris.length; i += TRACKS_PER_BATCH)`), producing the
successive `slice(i, i + TRACKS_PER_BATCH)` arguments of the append calls.
The fuel argument (instantiated with the list length) only serves
termination. -/
def batchLoop : Nat → List String → List (List String)
  | 0, _ => []
  | _ + 1, [] => []
  | f + 1, u :: rest =>
      ((u :: rest).take TRACKS_PER_BATCH) ::
        batchLoop f ((u :: rest).drop TRACKS_PER_BATCH)

/-- Arithmetic shadow of `batchLoop`: the lengths of the produced batches as a
function of the input length. -/
def lenChunks : Nat → Nat → List Nat
  | 0, _ => []
  | _ + 1, 0 => []
  | f + 1, n + 1 =>
      min TRACKS_PER_BATCH (n + 1) :: lenChunks f (n + 1 - TRACKS_PER_BATCH)

/-- Result of one `addTracksToPlaylist` call: the returned
`{ added, skipped }` stats, the list of per-call URI batches submitted to the
append endpoint, and the playlist membership afterwards. -/
structure AddOutcome where
  added : Nat
  skipped : Nat
  batches : List (List String)
  final : List String
deriving DecidableEq, Repr

/-- Embeds `addTracksToPlaylist` from `lib/spotify.js`.  The playlist's current
membership (fetched via `getPlaylistTrackUris` in the source) is the `existing`
parameter; each submitted batch appends its URIs to the playlist. -/
def addTracksToPlaylist (existing trackUris : List String) : AddOutcome :=
  if trackUris = [] then ⟨0, 0, [], existing⟩
  else
    let newUris := trackUris.filter (fun u => !existing.contains u)
    let skipped := trackUris.length - newUris.length
    if newUris = [] then ⟨0, skipped, [], existing⟩
    else
      let bs := batchLoop newUris.length newUris
      ⟨(bs.map List.length).sum, skipped, bs, existing ++ bs.flatten⟩

/-! ## Regex primitives

The small regular expressions of `music-detector.js` are embedded as explicit
character-level matchers.  A matcher consumes a prefix of its input and
returns the remainder on success. -/

/-- Case-insensitive literal run of a `/i` regex. -/
def matchCI : List Char → List Char → Option (List Char)
  | [], l => some l
  | _ :: _, [] => none
  | p :: ps, c :: cs => if c.toLower = p.toLower then matchCI ps cs else none

/-- Optional group `(...)?` with regex backtracking: try the group first, fall
back to skipping it if the continuation fails. -/
def optG (g k : List Char → Option (List Char)) (l : List Char) :
    Option (List Char) :=
  match g l with
  | some l₁ =>
      match k l₁ with
      | some r => some r
      | none => k l
  | none => k l

/-- Ordered alternation `(a|b)` with backtracking into the continuation. -/
def altG (g₁ g₂ k : List Char → Option (List Char)) (l : List Char) :
    Option (List Char) :=
  match g₁ l with
  | some l₁ =>
      match k l₁ with
      | some r => some r
      | none => (g₂ l).bind k
  | none => (g₂ l).bind k

/-- Greedy `X+` over a character class.  In all patterns below nothing follows
the class (or the next pattern character is outside the class), so greedy
matching needs no backtracking. -/
def plusOf (p : Char → Bool) (l : List Char) : Option (List Char) :=
  if l.takeWhile p = [] then none else some (l.dropWhile p)

/-- Characters matched by `[\w-]`. -/
def wdash (c : Char) : Bool := isWordChar c || c = '-'

/-- Shared `https?:\/\/` prefix of every music-platform pattern. -/
def httpPrefix (k : List Char → Option (List Char)) (l : List Char) :
    Option (List Char) :=
  (matchCI "http".data l).bind
    (optG (matchCI "s".data) (fun l₂ => (matchCI "://".data l₂).bind k))

/-- Optional `(www\.)?` group. -/
def wwwOpt (k : List Char → Option (List Char)) : List Char → Option (List Char) :=
  optG (matchCI "www.".data) k

/-- Embeds `/https?:\/\/(www\.)?youtube\.com\/watch\?v=[\w-]+/gi`. -/
def patYoutube : List Char → Option (List Char) :=
  httpPrefix (wwwOpt (fun l =>
    (matchCI "youtube.com/watch?v=".data l).bind (plusOf wdash)))

/-- Embeds `/https?:\/\/youtu\.be\/[\w-]+/gi`. -/
def patYoutuBe : List Char → Option (List Char) :=
  httpPrefix (fun l => (matchCI "youtu.be/".data l).bind (plusOf wdash))

/-- Embeds `/https?:\/\/(www\.)?soundcloud\.com\/[\w-]+\/[\w-]+/gi`. -/
def patSoundcloud : List Char → Option (List Char) :=
  httpPrefix (wwwOpt (fun l =>
    (matchCI "soundcloud.com/".data l).bind (fun l₁ =>
      (plusOf wdash l₁).bind (fun l₂ =>
        (matchCI "/".data l₂).bind (plusOf wdash)))))

/-- Embeds `/https?:\/\/open\.spotify\.com\/track\/[\w]+/gi`. -/
def patSpotifyOpen : List Char → Option (List Char) :=
  httpPrefix (fun l => (matchCI "open.spotify.com/track/".data l).bind (plusOf isWordChar))

/-- Embeds `/https?:\/\/(www\.)?spotify\.com\/track\/[\w]+/gi`. -/
def patSpotifyWww : List Char → Option (List Char) :=
  httpPrefix (wwwOpt (fun l =>
    (matchCI "spotify.com/track/".data l).bind (plusOf isWordChar)))

/-- Embeds `/https?:\/\/([\w-]+\.)?bandcamp\.com\/(track|album)\/[\w-]+/gi`. -/
def patBandcamp : List Char → Option (List Char) :=
  httpPrefix (optG (fun l => (plusOf wdash l).bind (matchCI ".".data))
    (fun l => (matchCI "bandcamp.com/".data l).bind
      (altG (matchCI "track".data) (matchCI "album".data)
        (fun l₁ => (matchCI "/".data l₁).bind (plusOf wdash)))))

/-- Embeds `/https?:\/\/(www\.)?music\.apple\.com\/[\w\/]+/gi`. -/
def patAppleMusic : List Char → Option (List Char) :=
  httpPrefix (wwwOpt (fun l =>
    (matchCI "music.apple.com/".data l).bind (plusOf (fun c => isWordChar c || c = '/'))))

/-- Embeds `/https?:\/\/(www\.)?tidal\.com\/(browse\/)?(track|album)\/[\d]+/gi`. -/
def patTidal : List Char → Option (List Char) :=
  httpPrefix (wwwOpt (fun l =>
    (matchCI "tidal.com/".data l).bind
      (optG (matchCI "browse/".data)
        (altG (matchCI "track".data) (matchCI "album".data)
          (fun l₁ => (matchCI "/".data l₁).bind (plusOf Char.isDigit))))))

/-- Embeds `/https?:\/\/(www\.)?deezer\.com\/(track|album)\/[\d]+/gi`. -/
def patDeezer : List Char → Option (List Char) :=
  httpPrefix (wwwOpt (fun l =>
    (matchCI "deezer.com/".data l).bind
      (altG (matchCI "track".data) (matchCI "album".data)
        (fun l₁ => (matchCI "/".data l₁).bind (plusOf Char.isDigit)))))

/-- Unanchored `RegExp.test`: does the pattern match starting at some
position? (All patterns require at least one character.) -/
def existsMatch (m : List Char → Option (List Char)) : List Char → Bool
  | [] => false
  | c :: rest => (m (c :: rest)).isSome || existsMatch m rest

/-- Embeds `MUSIC_URL_PATTERNS` from `lib/music-detector.js`. -/
def MUSIC_URL_PATTERNS : List (List Char → Option (List Char)) :=
  [patYoutube, patYoutuBe, patSoundcloud, patSpotifyOpen, patSpotifyWww,
   patBandcamp, patAppleMusic, patTidal, patDeezer]

/-- Embeds `isMusicUrl` from `lib/music-detector.js`. -/
def isMusicUrl (url : String) : Bool :=
  MUSIC_URL_PATTERNS.any (fun m => existsMatch m url.data)

/-- Substring containment, models `String.prototype.includes`. -/
def hasSubstr (needle : List Char) : List Char → Bool
  | [] => needle.isEmpty
  | c :: rest => needle.isPrefixOf (c :: rest) || hasSubstr needle rest

/-- Embeds `detectPlatform` from `lib/music-detector.js`. -/
def detectPlatform (url : String) : String :=
  let lower := url.data.map Char.toLower
  if hasSubstr "youtube.com".data lower || hasSubstr "youtu.be".data lower then "youtube"
  else if hasSubstr "soundcloud.com".data lower then "soundcloud"
  else if hasSubstr "spotify.com".data lower then "spotify"
  else if hasSubstr "bandcamp.com".data lower then "bandcamp"
  else if hasSubstr "music.apple.com".data lower then "apple_music"
  else if hasSubstr "tidal.com".data lower then "tidal"
  else if hasSubstr "deezer.com".data lower then "deezer"
  else "unknown"

/-- Scanner for `url.match(/spotify\.com\/track\/(\w+)/i)`: first position
where the literal matches with at least one following word character; the
capture is the greedy `\w+` run. -/
def spotifyIdScan : List Char → Option (List Char)
  | [] => none
  | c :: rest =>
      match matchCI "spotify.com/track/".data (c :: rest) with
      | some after =>
          let run := after.takeWhile isWordChar
          if run = [] then spotifyIdScan rest else some run
      | none => spotifyIdScan rest

/-- Embeds `extractSpotifyTrackId` from `lib/music-detector.js`. -/
def extractSpotifyTrackId (url : String) : Option String :=
  (spotifyIdScan url.data).map String.mk

/-! ## extractUrls -/

/-- Character class `[^\s<>"{}|\\^`[\]]` of `GENERIC_URL_PATTERN` (the
excluded braces, backtick are written via code points). -/
def urlChar (c : Char) : Bool :=
  !(isJsWs c || c = '<' || c = '>' || c = '"' || c.val = 123 || c.val = 125 ||
    c = '|' || c = '\\' || c = '^' || c.val = 96 || c = '[' || c = ']')

/-- One match attempt of `GENERIC_URL_PATTERN` at the current position:
`https?:\/\/` then one or more `urlChar`s (greedy).  Returns the matched
token and the remainder. -/
def urlMatchAt (l : List Char) : Option (List Char × List Char) :=
  match matchCI "http".data l with
  | none => none
  | some l₁ =>
      let l₂ := match matchCI "s".data l₁ with
        | some ls =>
            match matchCI "://".data ls with
            | some r => some r
            | none => matchCI "://".data l₁
        | none => matchCI "://".data l₁
      match l₂ with
      | none => none
      | some r =>
          if r.takeWhile urlChar = [] then none
          else
            let rem := r.dropWhile urlChar
            some (l.take (l.length - rem.length), rem)

/-- Global scan of `text.match(GENERIC_URL_PATTERN)`: leftmost matches,
resuming after each match.  Fuel is the input length. -/
def scanUrls : Nat → List Char → List String
  | 0, _ => []
  | _ + 1, [] => []
  | f + 1, c :: rest =>
      match urlMatchAt (c :: rest) with
      | some (tok, rem) => String.mk tok :: scanUrls f rem
      | none => scanUrls f rest

/-- Helper for `dedupeFirst` carrying the set of already-seen strings. -/
def dedupeGo (seen : List String) : List String → List String
  | [] => []
  | x :: xs => if seen.contains x then dedupeGo seen xs else x :: dedupeGo (x :: seen) xs

/-- Models `[...new Set(urls)]`: deduplication keeping first occurrences. -/
def dedupeFirst (l : List String) : List String := dedupeGo [] l

/-- The trailing-punctuation class `[.,;:!?)]` shared by `extractUrls` and
`extractMusicUrls`. -/
def PUNCT_TRAIL : List Char := ['.', ',', ';', ':', '!', '?', ')']

/-- Models `url.replace(/[.,;:!?)]+$/, '')`: strip the maximal trailing run of
sentence punctuation. -/
def stripTrailingPunct (s : String) : String :=
  String.mk ((s.data.reverse.dropWhile (fun c => PUNCT_TRAIL.contains c)).reverse)

/-- Embeds `extractUrls` from `lib/music-detector.js`: match the generic URL
pattern, deduplicate the raw matches, then strip trailing punctuation. -/
def extractUrls (text : String) : List String :=
  if text = "" then []
  else (dedupeFirst (scanUrls text.data.length text.data)).map stripTrailingPunct

/-! ## cleanTextForSearch -/

/-- `\s*`: greedy whitespace skip (the following pattern character is never
whitespace below, so no backtracking arises). -/
def skipWsStar (l : List Char) : List Char := l.dropWhile isJsWs

/-- Core `official\s*(music\s*)?video` of the first three replace patterns.
The two branches of the optional group start with distinct letters, so the
local backtracking below is exhaustive. -/
def officialCore (l : List Char) : Option (List Char) :=
  match matchCI "official".data l with
  | none => none
  | some l₁ =>
      let l₂ := skipWsStar l₁
      match matchCI "music".data l₂ with
      | some l₃ =>
          match matchCI "video".data (skipWsStar l₃) with
          | some r => some r
          | none => matchCI "video".data l₂
      | none => matchCI "video".data l₂

/-- Embeds `/\(official\s*(music\s*)?video\)/gi`. -/
def patParenOfficial (l : List Char) : Option (List Char) :=
  (matchCI "(".data l).bind (fun l₁ => (officialCore l₁).bind (matchCI ")".data))

/-- Embeds `/\[official\s*(music\s*)?video\]/gi`. -/
def patBracketOfficial (l : List Char) : Option (List Char) :=
  (matchCI "[".data l).bind (fun l₁ => (officialCore l₁).bind (matchCI "]".data))

/-- Embeds `/official\s*(music\s*)?video/gi`. -/
def patBareOfficial (l : List Char) : Option (List Char) := officialCore l

/-- Embeds `/\(lyric\s*video\)/gi`. -/
def patLyric (l : List Char) : Option (List Char) :=
  (matchCI "(lyric".data l).bind (fun l₁ => matchCI "video)".data (skipWsStar l₁))

/-- Embeds `/\(audio\)/gi`. -/
def patAudio (l : List Char) : Option (List Char) := matchCI "(audio)".data l

/-- Embeds `/\(visualizer\)/gi`. -/
def patVisualizer (l : List Char) : Option (List Char) := matchCI "(visualizer)".data l

/-- Global `replace(pattern, '')`: delete every (leftmost, non-overlapping)
match.  Fuel is the input length; every pattern consumes at least one
character. -/
def stripAll (m : List Char → Option (List Char)) : Nat → List Char → List Char
  | 0, l => l
  | _ + 1, [] => []
  | f + 1, c :: rest =>
      match m (c :: rest) with
      | some rem => stripAll m f rem
      | none => c :: stripAll m f rest

/-- Union of the five emoji/symbol code-point ranges removed by
`cleanTextForSearch` (each range is a single-code-point class replaced
globally by the empty string, i.e. a filter). -/
def isEmojiStripped (c : Char) : Bool :=
  (0x1F600 ≤ c.val && c.val ≤ 0x1F64F) ||
  (0x1F300 ≤ c.val && c.val ≤ 0x1F5FF) ||
  (0x1F680 ≤ c.val && c.val ≤ 0x1F6FF) ||
  (0x2600 ≤ c.val && c.val ≤ 0x26FF) ||
  (0x2700 ≤ c.val && c.val ≤ 0x27BF)

/-- Models `replace(/\s+/g, ' ')`: collapse each maximal whitespace run to a
single space. -/
def collapseWs : List Char → List Char
  | [] => []
  | [c] => if isJsWs c then [' '] else [c]
  | c :: d :: rest =>
      if isJsWs c then
        if isJsWs d then collapseWs (d :: rest)
        else ' ' :: collapseWs (d :: rest)
      else c :: collapseWs (d :: rest)

/-- Run one global-replace pass with fuel. -/
def applyStrip (m : List Char → Option (List Char)) (l : List Char) : List Char :=
  stripAll m l.length l

/-- Embeds `cleanTextForSearch` from `lib/music-detector.js`: the six noise
replacements, the emoji filters, whitespace collapsing and trim. -/
def cleanTextForSearch (text : String) : String :=
  if text = "" then ""
  else
    let l := text.data
    let l := applyStrip patParenOfficial l
    let l := applyStrip patBracketOfficial l
    let l := applyStrip patBareOfficial l
    let l := applyStrip patLyric l
    let l := applyStrip patAudio l
    let l := applyStrip patVisualizer l
    let l := l.filter (fun c => !isEmojiStripped c)
    let l := collapseWs l
    String.mk (trimList l)

/-! ## extractMusicInfo -/

/-- The separator class `[-–—]` of the dash pattern. -/
def isDashSep (c : Char) : Bool := c = '-' || c.val = 0x2013 || c.val = 0x2014

/-- Matches `\s*(.+)$` after the dash separator: greedy whitespace skip, then
a non-empty line-terminator-free remainder; if everything left is whitespace,
the engine backtracks `\s*` by one so the final group captures the last
character. -/
def tailGroupStar (rest : List Char) : Option (List Char) :=
  let r := rest.dropWhile isJsWs
  if r ≠ [] then
    if r.all dotChar then some r else none
  else
    match rest.getLast? with
    | some last => if dotChar last then some [last] else none
    | none => none

/-- The lazy-group loop of `/^(.+?)\s*[-–—]\s*(.+)$/`: `g1rev` holds the
reversed group-1 characters.  For a fixed group 1argest, the separator must sit
at the first non-whitespace position after it. -/
def dashLoop : List Char → List Char → Option (List Char × List Char)
  | _, [] => none
  | g1rev, c :: rs =>
      match (c :: rs).dropWhile isJsWs with
      | d :: rest₀ =>
          if isDashSep d then
            match tailGroupStar rest₀ with
            | some g2 => some (g1rev.reverse, g2)
            | none => if dotChar c then dashLoop (c :: g1rev) rs else none
          else if dotChar c then dashLoop (c :: g1rev) rs else none
      | [] => if dotChar c then dashLoop (c :: g1rev) rs else none

/-- Embeds `cleaned.match(/^(.+?)\s*[-–—]\s*(.+)$/)`, returning the two
captured groups. -/
def dashMatch (l : List Char) : Option (List Char × List Char) :=
  match l with
  | [] => none
  | c :: rs => if dotChar c then dashLoop [c] rs else none

/-- Matches `\s+(.+)$` (at least one whitespace character before the final
group). -/
def byTail (rest : List Char) : Option (List Char) :=
  let w := rest.takeWhile isJsWs
  if w = [] then none
  else
    let r := rest.dropWhile isJsWs
    if r ≠ [] then
      if r.all dotChar then some r else none
    else
      if 2 ≤ w.length then
        match rest.getLast? with
        | some last => if dotChar last then some [last] else none
        | none => none
      else none

/-- Matches `by\s+(.+)$` (case-insensitive `by`) at the position after the
separating whitespace. -/
def byHead (rest : List Char) : Option (List Char) :=
  match rest with
  | b :: y :: rest₂ =>
      if (b = 'b' || b = 'B') && (y = 'y' || y = 'Y') then byTail rest₂ else none
  | _ => none

/-- Matches `\s+by\s+(.+)$`: the first character after group 1 must be
whitespace and `by` must sit at the first non-whitespace position. -/
def byCheck (rest : List Char) : Option (List Char) :=
  match rest with
  | c :: _ => if isJsWs c then byHead (rest.dropWhile isJsWs) else none
  | [] => none

/-- The lazy-group loop of `/^(.+?)\s+by\s+(.+)$/i`. -/
def byLoop : List Char → List Char → Option (List Char × List Char)
  | _, [] => none
  | g1rev, c :: rs =>
      match byCheck (c :: rs) with
      | some g2 => some (g1rev.reverse, g2)
      | none => if dotChar c then byLoop (c :: g1rev) rs else none

/-- Embeds `cleaned.match(/^(.+?)\s+by\s+(.+)$/i)`. -/
def byMatch (l : List Char) : Option (List Char × List Char) :=
  match l with
  | [] => none
  | c :: rs => if dotChar c then byLoop [c] rs else none

/-- Result shape of `extractMusicInfo`. -/
structure MusicInfo where
  artist : Option String
  track : Option String
  query : String
deriving DecidableEq, Repr

/-- Embeds `extractMusicInfo` from `lib/music-detector.js`: try the dash
pattern first, then the `by` pattern, otherwise no hints. -/
def extractMusicInfo (text : String) : MusicInfo :=
  let cleaned := cleanTextForSearch text
  match dashMatch cleaned.data with
  | some (g1, g2) =>
      ⟨some (String.mk (trimList g1)), some (String.mk (trimList g2)), cleaned⟩
  | none =>
      match byMatch cleaned.data with
      | some (g1, g2) =>
          ⟨some (String.mk (trimList g2)), some (String.mk (trimList g1)), cleaned⟩
      | none => ⟨none, none, cleaned⟩

end DigitalDiggaz

namespace DigitalDiggaz

/-! ## Candidates -/

/-- JS truthiness of a nullable string: neither `null` nor the empty string. -/
def truthyOpt : Option String → Bool
  | none => false
  | some s => s ≠ ""

/-- A music candidate as built by `extractMusicFromPost` / `extractMusicUrls`
(`spotifyTrackId` is the spec's `directTrackId`). -/
structure Candidate where
  url : Option String
  platform : String
  spotifyTrackId : Option String
  searchQuery : String
  artist : Option String
  track : Option String
  source : String
deriving DecidableEq, Repr

/-- The fields of a Facebook post used by `extractMusicFromPost`. -/
structure Post where
  message : Option String
  story : Option String
  link : Option String
deriving DecidableEq, Repr

/-- JS `a || b` on a nullable string against a string default. -/
def firstTruthy (o : Option String) (d : String) : String :=
  match o with
  | some s => if s = "" then d else s
  | none => d

/-- Models `post.message || post.story || ''`. -/
def postText (p : Post) : String := firstTruthy p.message (firstTruthy p.story "")

/-- The candidate built for one recognized music URL inside
`extractMusicFromPost` (the search query comes from the surrounding text,
falling back to the first 100 characters if normalization yields an empty
query). -/
def mkUrlCandidate (url text : String) : Candidate :=
  let platform := detectPlatform url
  let tid := if platform = "spotify" then extractSpotifyTrackId url else none
  let info := extractMusicInfo text
  { url := some url
    platform := platform
    spotifyTrackId := tid
    searchQuery := if info.query ≠ "" then info.query else String.mk (text.data.take 100)
    artist := info.artist
    track := info.track
    source := "url" }

/-- Embeds `extractMusicFromPost` from `lib/music-detector.js`: one candidate
per recognized music URL; if none and the text is non-trivial, one text-only
fallback candidate. -/
def extractMusicFromPost (post : Post) : List Candidate :=
  let text := postText post
  let urls := extractUrls text
  let urls := match post.link with
    | some l => if l ≠ "" ∧ ¬ urls.contains l then urls ++ [l] else urls
    | none => urls
  let candidates := (urls.filter isMusicUrl).map (fun u => mkUrlCandidate u text)
  if candidates = [] ∧ 5 < text.length then
    let info := extractMusicInfo text
    if truthyOpt info.artist = true ∨ truthyOpt info.track = true ∨
        10 < info.query.length then
      [{ url := none, platform := "text_only", spotifyTrackId := none,
         searchQuery := info.query, artist := info.artist, track := info.track,
         source := "text" }]
    else []
  else candidates

/-! ## extractMusicUrls (manual-link path) -/

/-- Code points forbidden in the host of a special-scheme URL. -/
def hostForbidden (c : Char) : Bool :=
  c.val = 0 || c = '\t' || c = '\n' || c = '\r' || c = ' ' || c = '#' ||
  c = '/' || c = ':' || c = '<' || c = '>' || c = '?' || c = '@' ||
  c = '[' || c = '\\' || c = ']' || c = '^' || c = '|' || c = '%'

/-- URL-scheme continuation characters. -/
def isSchemeChar (c : Char) : Bool :=
  c.isAlpha || c.isDigit || c = '+' || c = '-' || c = '.'

/-- Modelled platform builtin: success predicate of the WHATWG `new URL(s)`
constructor used by `extractMusicUrls` (approximate on exotic inputs: a
percent sign in a host is treated as a parse failure, internationalized hosts
are not normalized).  A string parses iff it has a valid scheme followed by
`:`; special schemes additionally need a non-empty well-formed host and, if
present, a numeric port. -/
def canParseURL (s : String) : Bool :=
  let l := trimList s.data
  match l with
  | [] => false
  | c :: _ =>
      if !c.isAlpha then false
      else
        let run := l.takeWhile isSchemeChar
        let rest := l.drop run.length
        match rest with
        | ':' :: after =>
            let scheme := run.map Char.toLower
            if scheme = "http".data || scheme = "https".data || scheme = "ws".data ||
               scheme = "wss".data || scheme = "ftp".data then
              let after₂ := after.dropWhile (fun c => c = '/')
              let host := after₂.takeWhile
                (fun c => !(c = '/' || c = '?' || c = '#' || c = '\\' || c = ':'))
              let rest₂ := after₂.drop host.length
              let portOk := match rest₂ with
                | ':' :: pr =>
                    (pr.takeWhile
                      (fun c => !(c = '/' || c = '?' || c = '#' || c = '\\'))).all Char.isDigit
                | _ => true
              !host.isEmpty && host.all (fun c => !hostForbidden c) && portOk
            else if scheme = "file".data then true
            else true
        | _ => false

/-- Models `url.trim().replace(/[.,;:!?)]+$/, '')` from `extractMusicUrls`. -/
def cleanSubmittedUrl (url : String) : String := stripTrailingPunct (trimStr url)

/-- Embeds `extractMusicUrls` from `lib/music-detector.js` (the manual-link
candidate extractor used by the run handler's Step 5). -/
def extractMusicUrls (url : String) : List Candidate :=
  if url = "" then []
  else
    let cleanedUrl := cleanSubmittedUrl url
    if isMusicUrl cleanedUrl then
      let platform := detectPlatform cleanedUrl
      let tid := if platform = "spotify" then extractSpotifyTrackId cleanedUrl else none
      [{ url := some cleanedUrl, platform := platform, spotifyTrackId := tid,
         searchQuery := cleanedUrl, artist := none, track := none, source := "url" }]
    else if canParseURL cleanedUrl then
      [{ url := some cleanedUrl, platform := "unknown", spotifyTrackId := none,
         searchQuery := cleanedUrl, artist := none, track := none, source := "url" }]
    else []

/-- Embeds the run handler's Step 5
(`for (const url of links) { allCandidates.push(...extractMusicUrls(url)) }`):
the candidate-extraction stage of a run over the submitted links. -/
def step5 (links : List String) : List Candidate :=
  links.foldl (fun acc url => acc ++ extractMusicUrls url) []

/-! ## lib/spotify.js — track resolution -/

/-- The track data the bot extracts from a Spotify API track object
(`releaseDate` stands for `album.release_date`, empty when absent). -/
structure SpTrack where
  id : String
  uri : String
  name : String
  artists : List String
  releaseDate : String
deriving DecidableEq, Repr

/-- Embeds the query construction at the top of `searchTrack`
(`lib/spotify.js`): field-scoped query when hints are truthy. -/
def buildSearchQuery (query : String) (artist track : Option String) : String :=
  if truthyOpt artist && truthyOpt track then
    "track:" ++ track.getD "" ++ " artist:" ++ artist.getD ""
  else if truthyOpt track then
    "track:" ++ track.getD ""
  else if truthyOpt artist then
    "artist:" ++ artist.getD "" ++ " " ++ query
  else query

/-- Embeds `searchTrack` from `lib/spotify.js`.  The search endpoint is the
function `sapi` from query strings to either a thrown transport/API error
(`Except.error`, caught by the surrounding `try`) or the ordered result items;
the first item whose release date matches the target month is returned. -/
def searchTrack (query : String) (artist track : Option String)
    (targetYearMonth : String) (sapi : String → Except String (List SpTrack)) :
    Option SpTrack :=
  let searchQuery := buildSearchQuery query artist track
  match sapi searchQuery with
  | .error _ => none
  | .ok items => items.find? (fun it => isReleasedInMonth it.releaseDate targetYearMonth)

/-- Embeds `getTrackById` from `lib/spotify.js`: fetch the track, return it
only when its release date matches the target month; a thrown error is caught
and becomes `none`. -/
def getTrackById (trackId targetYearMonth : String)
    (db : String → Except String SpTrack) : Option SpTrack :=
  match db trackId with
  | .error _ => none
  | .ok d => if isReleasedInMonth d.releaseDate targetYearMonth then some d else none

/-- One request to the streaming service issued during candidate
resolution. -/
inductive ApiCall where
  | getTrack (id : String)
  | search (q : String)
deriving DecidableEq, Repr

/-- Embeds `processCandidate` from the run handler: direct track id first
(never searching), otherwise search when a query is present.  The second
component is the trace of endpoint requests the call issues. -/
def processCandidate (c : Candidate) (targetYearMonth : String)
    (db : String → Except String SpTrack)
    (sapi : String → Except String (List SpTrack)) :
    Option SpTrack × List ApiCall :=
  if truthyOpt c.spotifyTrackId then
    (getTrackById (c.spotifyTrackId.getD "") targetYearMonth db,
     [ApiCall.getTrack (c.spotifyTrackId.getD "")])
  else if c.searchQuery ≠ "" then
    (searchTrack c.searchQuery c.artist c.track targetYearMonth sapi,
     [ApiCall.search (buildSearchQuery c.searchQuery c.artist c.track)])
  else (none, [])

/-- One iteration of the handler's Step 6 loop: `processCandidate` cannot
throw (both resolver functions catch transport errors internally and return
`null`), so the `catch` that would push onto `stats.errors` never fires; a
resolved track is recorded unless its id was already matched. -/
def step6Fold (targetYearMonth : String) (db : String → Except String SpTrack)
    (sapi : String → Except String (List SpTrack))
    (acc : List SpTrack × List String) (c : Candidate) :
    List SpTrack × List String :=
  match (processCandidate c targetYearMonth db sapi).1 with
  | some t => if acc.1.any (fun x => x.id = t.id) then acc else (acc.1 ++ [t], acc.2)
  | none => acc

/-- Embeds the run handler's Step 6 (`for (const candidate of allCandidates)`):
returns the matched tracks (Map insertion order, first id wins) and the
`stats.errors` list accumulated by the loop's `catch`. -/
def step6 (cands : List Candidate) (targetYearMonth : String)
    (db : String → Except String SpTrack)
    (sapi : String → Except String (List SpTrack)) :
    List SpTrack × List String :=
  cands.foldl (step6Fold targetYearMonth db sapi) ([], [])

end DigitalDiggaz

namespace DigitalDiggaz

theorem batchLoop_join : ∀ (f : Nat) (l : List String), l.length ≤ f →
    (batchLoop f l).flatten = l := by
  intro f
  induction f with
  | zero =>
      intro l hl
      have : l = [] := List.length_eq_zero.mp (Nat.le_zero.mp hl)
      simp [this, batchLoop]
  | succ f ih =>
      intro l hl
      match l with
      | [] => simp [batchLoop]
      | u :: rest =>
          have hdrop : ((u :: rest).drop TRACKS_PER_BATCH).length ≤ f := by
            simp only [List.length_drop, List.length_cons, TRACKS_PER_BATCH] at *
            omega
          simp only [batchLoop, List.flatten]
          rw [ih _ hdrop]
          exact List.take_append_drop _ _

theorem batchLoop_map_length : ∀ (f : Nat) (l : List String),
    (batchLoop f l).map List.length = lenChunks f l.length := by
  intro f
  induction f with
  | zero => intro l; simp [batchLoop, lenChunks]
  | succ f ih =>
      intro l
      match l with
      | [] => simp [batchLoop, lenChunks]
      | u :: rest =>
          simp only [batchLoop, List.map_cons, List.length_cons, lenChunks,
            List.length_take, List.length_drop] at *
          rw [ih]
          simp [Nat.min_comm]

theorem lenChunks_length : ∀ (f n : Nat), n ≤ f →
    (lenChunks f n).length = (n + 99) / 100 := by
  intro f
  induction f with
  | zero =>
      intro n hn
      have : n = 0 := Nat.le_zero.mp hn
      simp [this, lenChunks]
  | succ f ih =>
      intro n hn
      match n with
      | 0 => simp [lenChunks]
      | m + 1 =>
          have hrec : (m + 1 - TRACKS_PER_BATCH) ≤ f := by
            simp only [TRACKS_PER_BATCH]; omega
          simp only [lenChunks, List.length_cons]
          rw [ih _ hrec]
          simp only [TRACKS_PER_BATCH]
          omega

theorem lenChunks_le : ∀ (f n : Nat), ∀ x ∈ lenChunks f n, x ≤ TRACKS_PER_BATCH := by
  intro f
  induction f with
  | zero => intro n x hx; simp [lenChunks] at hx
  | succ f ih =>
      intro n x hx
      match n with
      | 0 => simp [lenChunks] at hx
      | m + 1 =>
          simp only [lenChunks, List.mem_cons] at hx
          rcases hx with h | h
          · simp [h, Nat.min_le_left]
          · exact ih _ _ h

theorem filter_fresh_eq_self (existing uris : List String)
    (hnew : ∀ u ∈ uris, u ∉ existing) :
    uris.filter (fun u => !existing.contains u) = uris := by
  apply List.filter_eq_self.mpr
  intro u hu
  simp [List.contains, List.elem_iff, hnew u hu]

theorem filter_dup_eq_nil (existing uris : List String)
    (hdup : ∀ u ∈ uris, u ∈ existing) :
    uris.filter (fun u => !existing.contains u) = [] := by
  apply List.filter_eq_nil_iff.mpr
  intro u hu
  simp [List.contains, List.elem_iff, hdup u hu]

theorem addTracks_fresh (existing uris : List String)
    (hnew : ∀ u ∈ uris, u ∉ existing) :
    addTracksToPlaylist existing uris =
      ⟨uris.length, 0, batchLoop uris.length uris, existing ++ uris⟩ := by
  by_cases h : uris = []
  · subst h; simp [addTracksToPlaylist, batchLoop]
  · unfold addTracksToPlaylist
    rw [if_neg h]
    simp only [filter_fresh_eq_self existing uris hnew]
    rw [if_neg h]
    have hj : (batchLoop uris.length uris).flatten = uris :=
      batchLoop_join uris.length uris (Nat.le_refl _)
    have hsum : ((batchLoop uris.length uris).map List.length).sum = uris.length := by
      rw [← List.length_flatten, hj]
    rw [hsum, Nat.sub_self, hj]

theorem addTracks_allDup (existing uris : List String)
    (hdup : ∀ u ∈ uris, u ∈ existing) :
    addTracksToPlaylist existing uris = ⟨0, uris.length, [], existing⟩ := by
  by_cases h : uris = []
  · subst h; simp [addTracksToPlaylist]
  · unfold addTracksToPlaylist
    rw [if_neg h]
    simp only [filter_dup_eq_nil existing uris hdup]
    simp

/-- Claim C4: `addTracksToPlaylist` is idempotent on playlist membership: for a
set of N track URIs none of which is already a member, the first call reports
`added = N, skipped = 0`, a second identical call reports `added = 0,
skipped = N`, and the second call leaves the membership unchanged. -/
theorem addTracksToPlaylist_idempotent (existing uris : List String)
    (_hnd : uris.Nodup) (hnew : ∀ u ∈ uris, u ∉ existing) :
    (addTracksToPlaylist existing uris).added = uris.length ∧
    (addTracksToPlaylist existing uris).skipped = 0 ∧
    (addTracksToPlaylist (addTracksToPlaylist existing uris).final uris).added = 0 ∧
    (addTracksToPlaylist (addTracksToPlaylist existing uris).final uris).skipped
      = uris.length ∧
    (addTracksToPlaylist (addTracksToPlaylist existing uris).final uris).final
      = (addTracksToPlaylist existing uris).final := by
  have h1 := addTracks_fresh existing uris hnew
  have h2 : addTracksToPlaylist (existing ++ uris) uris
      = ⟨0, uris.length, [], existing ++ uris⟩ :=
    addTracks_allDup (existing ++ uris) uris
      (fun u hu => List.mem_append_right existing hu)
  rw [h1]
  exact ⟨rfl, rfl, by rw [h2], by rw [h2], by rw [h2]⟩

/-- Witness for C4 at a concrete playlist and URI set. -/
theorem addTracksToPlaylist_idempotent_witness :
    (["spotify:track:a", "spotify:track:b"] : List String).Nodup ∧
    (∀ u ∈ (["spotify:track:a", "spotify:track:b"] : List String),
      u ∉ (["spotify:track:old"] : List String)) ∧
    ((addTracksToPlaylist ["spotify:track:old"]
        ["spotify:track:a", "spotify:track:b"]).added = 2 ∧
     (addTracksToPlaylist ["spotify:track:old"]
        ["spotify:track:a", "spotify:track:b"]).skipped = 0 ∧
     (addTracksToPlaylist
        (addTracksToPlaylist ["spotify:track:old"]
          ["spotify:track:a", "spotify:track:b"]).final
        ["spotify:track:a", "spotify:track:b"]).added = 0 ∧
     (addTracksToPlaylist
        (addTracksToPlaylist ["spotify:track:old"]
          ["spotify:track:a", "spotify:track:b"]).final
        ["spotify:track:a", "spotify:track:b"]).skipped = 2 ∧
     (addTracksToPlaylist
        (addTracksToPlaylist ["spotify:track:old"]
          ["spotify:track:a", "spotify:track:b"]).final
        ["spotify:track:a", "spotify:track:b"]).final
       = (addTracksToPlaylist ["spotify:track:old"]
          ["spotify:track:a", "spotify:track:b"]).final) :=
  ⟨by decide, by decide,
   addTracksToPlaylist_idempotent ["spotify:track:old"]
     ["spotify:track:a", "spotify:track:b"] (by decide) (by decide)⟩

/-- Claim C5: for a list of new (non-duplicate) track URIs,
`addTracksToPlaylist` submits them in ceiling(N/100) append calls, each batch
at most `TRACKS_PER_BATCH = 100` URIs, the batches concatenate back to the
input (so `added` equals the total number of URIs submitted), and 250 URIs
yield exactly the batch sizes 100, 100, 50. -/
theorem addTracksToPlaylist_batching (existing uris : List String)
    (_hnd : uris.Nodup) (hnew : ∀ u ∈ uris, u ∉ existing) :
    (addTracksToPlaylist existing uris).added = uris.length ∧
    (addTracksToPlaylist existing uris).batches.length = (uris.length + 99) / 100 ∧
    (∀ b ∈ (addTracksToPlaylist existing uris).batches, b.length ≤ TRACKS_PER_BATCH) ∧
    (addTracksToPlaylist existing uris).batches.flatten = uris ∧
    (uris.length = 250 →
      (addTracksToPlaylist existing uris).batches.map List.length = [100, 100, 50]) := by
  rw [addTracks_fresh existing uris hnew]
  refine ⟨rfl, ?_, ?_, batchLoop_join uris.length uris (Nat.le_refl _), ?_⟩
  · show (batchLoop uris.length uris).length = (uris.length + 99) / 100
    have := batchLoop_map_length uris.length uris
    have hlen : (batchLoop uris.length uris).length
        = (lenChunks uris.length uris.length).length := by
      rw [← this, List.length_map]
    rw [hlen, lenChunks_length uris.length uris.length (Nat.le_refl _)]
  · intro b hb
    have : b.length ∈ (batchLoop uris.length uris).map List.length :=
      List.mem_map_of_mem List.length hb
    rw [batchLoop_map_length] at this
    exact lenChunks_le uris.length uris.length b.length this
  · intro h250
    rw [batchLoop_map_length, h250]
    decide

/-- Witness for C5 at a concrete URI set. -/
theorem addTracksToPlaylist_batching_witness :
    (["u1", "u2", "u3"] : List String).Nodup ∧
    (∀ u ∈ (["u1", "u2", "u3"] : List String), u ∉ ([] : List String)) ∧
    ((addTracksToPlaylist [] ["u1", "u2", "u3"]).added = 3 ∧
     (addTracksToPlaylist [] ["u1", "u2", "u3"]).batches.length = (3 + 99) / 100 ∧
     (∀ b ∈ (addTracksToPlaylist [] ["u1", "u2", "u3"]).batches,
        b.length ≤ TRACKS_PER_BATCH) ∧
     (addTracksToPlaylist [] ["u1", "u2", "u3"]).batches.flatten = ["u1", "u2", "u3"] ∧
     ((["u1", "u2", "u3"] : List String).length = 250 →
       (addTracksToPlaylist [] ["u1", "u2", "u3"]).batches.map List.length
         = [100, 100, 50])) :=
  ⟨by decide, by decide,
   addTracksToPlaylist_batching [] ["u1", "u2", "u3"] (by decide) (by decide)⟩

/-- Claim C1: for a non-empty target string, `isReleasedInMonth d t` is true
iff `d` has at least 7 characters and starts with `t`; and a 4-character
release-date string (a bare year) never matches any target. -/
theorem isReleasedInMonth_iff :
    (∀ d t : String, t ≠ "" →
      (isReleasedInMonth d t = true ↔
        7 ≤ d.length ∧ t.data.isPrefixOf d.data = true)) ∧
    (∀ d t : String, d.length = 4 → isReleasedInMonth d t = false) := by
  constructor
  · intro d t ht
    by_cases hd : d = ""
    · subst hd
      simp only [isReleasedInMonth]
      constructor
      · intro h; simp at h
      · intro ⟨h7, _⟩
        have h0 : ("" : String).length = 0 := rfl
        omega
    · by_cases h7 : d.length < 7
      · simp only [isReleasedInMonth, hd, ht]
        simp [h7]
      · simp only [isReleasedInMonth, hd, ht]
        simp [h7]
        intro _
        omega
  · intro d t h4
    have hd : d ≠ "" := by
      intro h
      subst h
      exact absurd h4 (by decide)
    by_cases ht : t = ""
    · simp [isReleasedInMonth, ht]
    · simp [isReleasedInMonth, hd, ht, h4]

/-- Witness for C1 at the spec's own examples. -/
theorem isReleasedInMonth_iff_witness :
    (("2026-01" : String) ≠ "" ∧
      (isReleasedInMonth "2026-01-15" "2026-01" = true ↔
        7 ≤ ("2026-01-15" : String).length ∧
        ("2026-01" : String).data.isPrefixOf ("2026-01-15" : String).data = true)) ∧
    (("2026" : String).length = 4 ∧ isReleasedInMonth "2026" "2026-01" = false) :=
  ⟨⟨by decide, isReleasedInMonth_iff.1 "2026-01-15" "2026-01" (by decide)⟩,
   ⟨by decide, isReleasedInMonth_iff.2 "2026" "2026-01" (by decide)⟩⟩

/-! ## Claim theorems: normalizer and extractor -/

theorem dedupeGo_nodup : ∀ (l seen : List String),
    (dedupeGo seen l).Nodup ∧ ∀ x ∈ dedupeGo seen l, x ∉ seen := by
  intro l
  induction l with
  | nil => intro seen; simp [dedupeGo]
  | cons x xs ih =>
      intro seen
      by_cases h : seen.contains x
      · simp only [dedupeGo, if_pos h]
        exact ⟨(ih seen).1, (ih seen).2⟩
      · simp only [dedupeGo, if_neg h]
        obtain ⟨hnd, hnotin⟩ := ih (x :: seen)
        refine ⟨List.nodup_cons.mpr ⟨?_, hnd⟩, ?_⟩
        · intro hx
          exact (hnotin x hx) (List.mem_cons_self x seen)
        · intro y hy hmem
          rcases List.mem_cons.mp hy with rfl | hy'
          · exact h (by simp [List.contains, List.elem_iff, hmem])
          · exact (hnotin y hy') (List.mem_cons_of_mem x hmem)

/-- Claim C7: the normalizer tries the dash pattern before the "by" pattern
and the first match wins: "Foo - Bar by Baz" parses as artist "Foo" and track
"Bar by Baz", and whenever the dash pattern matches the cleaned text the
result is determined by the dash split alone — the "by" pattern is never
consulted. -/
theorem extractMusicInfo_dash_precedence :
    extractMusicInfo "Foo - Bar by Baz"
      = ⟨some "Foo", some "Bar by Baz", "Foo - Bar by Baz"⟩ ∧
    ∀ (text : String) (g1 g2 : List Char),
      dashMatch (cleanTextForSearch text).data = some (g1, g2) →
      extractMusicInfo text
        = ⟨some (String.mk (trimList g1)), some (String.mk (trimList g2)),
           cleanTextForSearch text⟩ := by
  constructor
  · decide
  · intro text g1 g2 h
    simp only [extractMusicInfo, h]

/-- Witness for C7's general part at the claim's own example. -/
theorem extractMusicInfo_dash_precedence_witness :
    dashMatch (cleanTextForSearch "Foo - Bar by Baz").data
      = some ("Foo".data, "Bar by Baz".data) ∧
    extractMusicInfo "Foo - Bar by Baz"
      = ⟨some (String.mk (trimList "Foo".data)),
         some (String.mk (trimList "Bar by Baz".data)),
         cleanTextForSearch "Foo - Bar by Baz"⟩ :=
  ⟨by decide,
   extractMusicInfo_dash_precedence.2 "Foo - Bar by Baz" "Foo".data "Bar by Baz".data
     (by decide)⟩

/-- Counterexample to C9 as stated: deduplication happens on the raw matches
before trailing punctuation is stripped, so the same URL written with and
without a trailing period yields a result list that still contains a
duplicate — not a deduplicated set of stripped URLs. -/
theorem extractUrls_duplicate_after_strip :
    extractUrls "http://a.com http://a.com." = ["http://a.com", "http://a.com"] ∧
    ¬ (extractUrls "http://a.com http://a.com.").Nodup := by
  refine ⟨by decide, by decide⟩

/-- Claim C9 (amended): the URL extractor returns the generic-pattern matches
deduplicated before punctuation stripping: empty input yields an empty result,
two identical raw occurrences collapse to one element, the deduplicated raw
match list is always duplicate-free, but no URL-parse validation is performed
(a match that fails URL parsing, such as "http://%", is kept). -/
theorem extractUrls_behaviour :
    extractUrls "" = [] ∧
    extractUrls "see http://a.com and http://a.com" = ["http://a.com"] ∧
    (extractUrls "http://%" = ["http://%"] ∧ canParseURL "http://%" = false) ∧
    ∀ text : String, (dedupeFirst (scanUrls text.data.length text.data)).Nodup := by
  refine ⟨by decide, by decide, ⟨by decide, by decide⟩, ?_⟩
  intro text
  exact (dedupeGo_nodup (scanUrls text.data.length text.data) []).1

/-- Counterexample to C2 as stated: for the submission list
["Check out Daft Punk - Around The World"] the run's candidate-extraction
stage (Step 5, built on extractMusicUrls) produces no candidates at all, not
one text-only candidate. -/
theorem step5_text_submission_empty :
    step5 ["Check out Daft Punk - Around The World"] = [] := by
  decide

/-- Claim C2 (amended): the run's extraction stage yields zero candidates for
a non-URL text submission (extractMusicUrls rejects it as unparseable); the
text-only fallback exists only in extractMusicFromPost — the Facebook-post
path, which the manual-link run does not use.  There, a post whose text
contains no music URLs, is longer than 5 characters, and normalizes to an
artist/track hint or a query longer than 10 characters yields exactly one
text-only candidate; for "Check out Daft Punk - Around The World" its hints
are artist "Check out Daft Punk" (the anchored dash rule keeps the whole left
side, contrary to the function's own docstring example "Daft Punk") and track
"Around The World". -/
theorem textOnly_fallback :
    extractMusicUrls "Check out Daft Punk - Around The World" = [] ∧
    extractMusicFromPost ⟨some "Check out Daft Punk - Around The World", none, none⟩
      = [{ url := none, platform := "text_only", spotifyTrackId := none,
           searchQuery := "Check out Daft Punk - Around The World",
           artist := some "Check out Daft Punk",
           track := some "Around The World", source := "text" }] ∧
    ∀ text : String,
      (∀ u ∈ extractUrls text, isMusicUrl u = false) →
      5 < text.length →
      (truthyOpt (extractMusicInfo text).artist = true ∨
       truthyOpt (extractMusicInfo text).track = true ∨
       10 < (extractMusicInfo text).query.length) →
      extractMusicFromPost ⟨some text, none, none⟩
        = [{ url := none, platform := "text_only", spotifyTrackId := none,
             searchQuery := (extractMusicInfo text).query,
             artist := (extractMusicInfo text).artist,
             track := (extractMusicInfo text).track, source := "text" }] := by
  refine ⟨by decide, by decide, ?_⟩
  intro text hnourl hlen hcond
  have hne : text ≠ "" := by
    intro h
    subst h
    have h0 : ("" : String).length = 0 := rfl
    omega
  have htext : postText ⟨some text, none, none⟩ = text := by
    simp [postText, firstTruthy, hne]
  have hfilter : (extractUrls text).filter isMusicUrl = [] := by
    apply List.filter_eq_nil_iff.mpr
    intro u hu
    simp [hnourl u hu]
  simp only [extractMusicFromPost, htext, hfilter, List.map_nil]
  rw [if_pos ⟨trivial, hlen⟩, if_pos hcond]

/-- Witness for C2's amended fallback rule at the claim's own text. -/
theorem textOnly_fallback_witness :
    (∀ u ∈ extractUrls "Check out Daft Punk - Around The World",
      isMusicUrl u = false) ∧
    5 < ("Check out Daft Punk - Around The World" : String).length ∧
    truthyOpt (extractMusicInfo "Check out Daft Punk - Around The World").artist = true ∧
    extractMusicFromPost ⟨some "Check out Daft Punk - Around The World", none, none⟩
      = [{ url := none, platform := "text_only", spotifyTrackId := none,
           searchQuery :=
             (extractMusicInfo "Check out Daft Punk - Around The World").query,
           artist := (extractMusicInfo "Check out Daft Punk - Around The World").artist,
           track := (extractMusicInfo "Check out Daft Punk - Around The World").track,
           source := "text" }] :=
  ⟨by decide, by decide, by decide,
   textOnly_fallback.2.2 "Check out Daft Punk - Around The World"
     (by decide) (by decide) (Or.inl (by decide))⟩

/-- Counterexample to C3 as stated: with only the track hint present the
constructed search query is exactly `track:<track>` — the raw query is not
appended to it (it does not occur in the result at all). -/
theorem buildSearchQuery_trackOnly_noRawAppend :
    buildSearchQuery "rawfallback" none (some "Song") = "track:Song" ∧
    hasSubstr "rawfallback".data
      (buildSearchQuery "rawfallback" none (some "Song")).data = false := by
  refine ⟨by decide, by decide⟩

/-- Claim C3 (amended): with both hints the query is
`track:<track> artist:<artist>`; with only a track hint it is `track:<track>`
with the raw query NOT appended; with only an artist hint it is
`artist:<artist> <raw query>`; with neither the raw query is used
unchanged. -/
theorem buildSearchQuery_cases (q : String) (artist track : Option String) :
    (truthyOpt artist = true → truthyOpt track = true →
      buildSearchQuery q artist track
        = "track:" ++ track.getD "" ++ " artist:" ++ artist.getD "") ∧
    (truthyOpt artist = false → truthyOpt track = true →
      buildSearchQuery q artist track = "track:" ++ track.getD "") ∧
    (truthyOpt artist = true → truthyOpt track = false →
      buildSearchQuery q artist track = "artist:" ++ artist.getD "" ++ " " ++ q) ∧
    (truthyOpt artist = false → truthyOpt track = false →
      buildSearchQuery q artist track = q) := by
  refine ⟨?_, ?_, ?_, ?_⟩ <;> intro h1 h2 <;> simp [buildSearchQuery, h1, h2]

/-- Witness for C3 (amended) at one concrete input per case. -/
theorem buildSearchQuery_cases_witness :
    buildSearchQuery "rawq" (some "A") (some "T") = "track:T artist:A" ∧
    buildSearchQuery "rawq" none (some "T") = "track:T" ∧
    buildSearchQuery "rawq" (some "A") none = "artist:A rawq" ∧
    buildSearchQuery "rawq" none none = "rawq" :=
  ⟨(buildSearchQuery_cases "rawq" (some "A") (some "T")).1 (by decide) (by decide),
   (buildSearchQuery_cases "rawq" none (some "T")).2.1 (by decide) (by decide),
   (buildSearchQuery_cases "rawq" (some "A") none).2.2.1 (by decide) (by decide),
   (buildSearchQuery_cases "rawq" none none).2.2.2 (by decide) (by decide)⟩

/-- Claim C10: an input that parses as a URL but matches no music-platform
pattern still yields exactly one candidate, tagged platform "unknown", with no
direct track id, no hints, and the cleaned URL itself as the search query; and
an empty candidate list occurs only for inputs whose cleaned form fails URL
parsing. -/
theorem extractMusicUrls_unknown_platform :
    (∀ url : String, url ≠ "" →
      isMusicUrl (cleanSubmittedUrl url) = false →
      canParseURL (cleanSubmittedUrl url) = true →
      extractMusicUrls url
        = [{ url := some (cleanSubmittedUrl url), platform := "unknown",
             spotifyTrackId := none, searchQuery := cleanSubmittedUrl url,
             artist := none, track := none, source := "url" }]) ∧
    (∀ url : String, extractMusicUrls url = [] →
      canParseURL (cleanSubmittedUrl url) = false) := by
  constructor
  · intro url h0 h1 h2
    simp [extractMusicUrls, h0, h1, h2]
  · intro url h
    by_cases h0 : url = ""
    · subst h0; decide
    · by_cases h1 : isMusicUrl (cleanSubmittedUrl url)
      · exfalso
        simp [extractMusicUrls, h0, h1] at h
      · by_cases h2 : canParseURL (cleanSubmittedUrl url)
        · exfalso
          simp [extractMusicUrls, h0, h1, h2] at h
        · simpa using h2

/-- Witness for C10 at a parseable non-music URL and at a non-URL string. -/
theorem extractMusicUrls_unknown_platform_witness :
    (("https://example.com/article" : String) ≠ "" ∧
     isMusicUrl (cleanSubmittedUrl "https://example.com/article") = false ∧
     canParseURL (cleanSubmittedUrl "https://example.com/article") = true ∧
     extractMusicUrls "https://example.com/article"
       = [{ url := some (cleanSubmittedUrl "https://example.com/article"),
            platform := "unknown", spotifyTrackId := none,
            searchQuery := cleanSubmittedUrl "https://example.com/article",
            artist := none, track := none, source := "url" }]) ∧
    (extractMusicUrls "not a url" = [] ∧
     canParseURL (cleanSubmittedUrl "not a url") = false) :=
  ⟨⟨by decide, by decide, by decide,
    extractMusicUrls_unknown_platform.1 "https://example.com/article"
      (by decide) (by decide) (by decide)⟩,
   ⟨by decide, extractMusicUrls_unknown_platform.2 "not a url" (by decide)⟩⟩

/-! ## Claim theorems: resolver -/

/-- Claim C6: a candidate with a direct track id is resolved by fetching that
track's metadata only: the request trace is exactly one get-track call and
contains no search call (even when a search query is also present), and the
track is accepted iff its release date matches the target month — otherwise
none is returned. -/
theorem processCandidate_directId (c : Candidate) (id targetYearMonth : String)
    (db : String → Except String SpTrack)
    (sapi : String → Except String (List SpTrack))
    (hid : c.spotifyTrackId = some id) (hne : id ≠ "") :
    (processCandidate c targetYearMonth db sapi).2 = [ApiCall.getTrack id] ∧
    (∀ q : String, ApiCall.search q ∉ (processCandidate c targetYearMonth db sapi).2) ∧
    (∀ d : SpTrack, db id = .ok d →
      (processCandidate c targetYearMonth db sapi).1
        = if isReleasedInMonth d.releaseDate targetYearMonth then some d else none) ∧
    (∀ e : String, db id = .error e →
      (processCandidate c targetYearMonth db sapi).1 = none) := by
  refine ⟨?_, ?_, ?_, ?_⟩
  · simp [processCandidate, hid, truthyOpt, hne]
  · intro q
    simp [processCandidate, hid, truthyOpt, hne]
  · intro d hd
    simp [processCandidate, hid, truthyOpt, hne, getTrackById, hd]
  · intro e he
    simp [processCandidate, hid, truthyOpt, hne, getTrackById, he]

/-- Witness for C6: a direct-id candidate that also carries a non-empty
search query issues exactly one get-track request. -/
theorem processCandidate_directId_witness :
    (processCandidate
        ⟨some "https://open.spotify.com/track/abc", "spotify", some "abc",
         "some leftover query", none, none, "url"⟩ "2026-01"
        (fun i => if i = "abc"
          then Except.ok (⟨"abc", "spotify:track:abc", "Song", ["Artist"],
            "2026-01-15"⟩ : SpTrack)
          else Except.error "404")
        (fun _ => Except.error "unreachable")).2 = [ApiCall.getTrack "abc"] :=
  (processCandidate_directId _ "abc" "2026-01" _ _ rfl (by decide)).1

theorem step6Fold_snd (tYM : String) (db : String → Except String SpTrack)
    (sapi : String → Except String (List SpTrack))
    (acc : List SpTrack × List String) (c : Candidate) :
    (step6Fold tYM db sapi acc c).2 = acc.2 := by
  unfold step6Fold
  cases (processCandidate c tYM db sapi).1 with
  | none => rfl
  | some t =>
      by_cases h : acc.1.any (fun x => x.id = t.id)
      · simp [h]
      · simp [h]

theorem step6_foldl_snd (tYM : String) (db : String → Except String SpTrack)
    (sapi : String → Except String (List SpTrack)) :
    ∀ (cands : List Candidate) (acc : List SpTrack × List String),
      (cands.foldl (step6Fold tYM db sapi) acc).2 = acc.2 := by
  intro cands
  induction cands with
  | nil => intro acc; rfl
  | cons x xs ih =>
      intro acc
      rw [List.foldl_cons, ih, step6Fold_snd]

/-- Counterexample to C8 as stated: a transport failure of the search endpoint
("ECONNRESET") is swallowed inside the resolver, so the run's error list stays
empty — the error is never recorded in `stats.errors` as the claim says. -/
theorem step6_transport_error_not_recorded :
    step6 [⟨some "http://x.example/a", "unknown", none, "http://x.example/a",
            none, none, "url"⟩] "2026-01"
      (fun _ => .error "ECONNRESET") (fun _ => .error "ECONNRESET")
    = ([], []) := by
  decide

/-- Claim C8 (amended): a transport/API failure during resolution of one
candidate is recovered locally: the resolver returns none, the candidate is
treated as no match and contributes nothing, the run continues with the
remaining candidates exactly as if the candidate were absent — but, contrary
to the spec, the error is NOT pushed into the run's error list, which remains
empty (the loop's catch only collects exceptions escaping processCandidate,
and transport errors are already caught inside the resolver). -/
theorem step6_local_recovery (pre post : List Candidate) (c : Candidate)
    (tYM : String) (db : String → Except String SpTrack)
    (sapi : String → Except String (List SpTrack))
    (hfail : (processCandidate c tYM db sapi).1 = none) :
    step6 (pre ++ c :: post) tYM db sapi = step6 (pre ++ post) tYM db sapi ∧
    (step6 (pre ++ c :: post) tYM db sapi).2 = [] := by
  constructor
  · unfold step6
    rw [List.foldl_append, List.foldl_append, List.foldl_cons]
    have : step6Fold tYM db sapi (List.foldl (step6Fold tYM db sapi) ([], []) pre) c
        = List.foldl (step6Fold tYM db sapi) ([], []) pre := by
      unfold step6Fold
      rw [hfail]
    rw [this]
  · unfold step6
    rw [step6_foldl_snd]

/-- Witness for C8 (amended): a failing search candidate between two other
candidates is skipped and leaves the error list empty. -/
theorem step6_local_recovery_witness :
    (processCandidate
      ⟨some "http://x.example/a", "unknown", none, "http://x.example/a",
       none, none, "url"⟩ "2026-01"
      (fun _ => .error "offline")
      (fun _ => .error "ECONNRESET")).1 = none ∧
    (step6 ([] ++ ⟨some "http://x.example/a", "unknown", none,
        "http://x.example/a", none, none, "url"⟩ ::
        [⟨some "u2", "unknown", none, "q2", none, none, "url"⟩]) "2026-01"
      (fun _ => .error "offline") (fun _ => .error "ECONNRESET")
      = step6 ([] ++ [⟨some "u2", "unknown", none, "q2", none, none, "url"⟩])
        "2026-01" (fun _ => .error "offline") (fun _ => .error "ECONNRESET") ∧
    (step6 ([] ++ ⟨some "http://x.example/a", "unknown", none,
        "http://x.example/a", none, none, "url"⟩ ::
        [⟨some "u2", "unknown", none, "q2", none, none, "url"⟩]) "2026-01"
      (fun _ => .error "offline") (fun _ => .error "ECONNRESET")).2 = []) :=
  ⟨by decide,
   step6_local_recovery [] [⟨some "u2", "unknown", none, "q2", none, none, "url"⟩]
     ⟨some "http://x.example/a", "unknown", none, "http://x.example/a",
      none, none, "url"⟩ "2026-01"
     (fun _ => .error "offline") (fun _ => .error "ECONNRESET") (by decide)⟩

end DigitalDiggaz
